import Mathlib

/-!
Shallow embedding of the loss-configuration layer of the SimilarityLearning
repository: the loss dispatch and triplet-strategy dispatch of `src/common.py`,
the `LossConfig` hierarchy with its per-task optimizer assembly of
`src/losses/config.py`, and `SimNet.all_params` of `src/models.py`.

Python floats are modelled as rationals (the code only multiplies learning
rates by integer constants, so no rounding is involved in the routed values).
PyTorch parameter collections are never inspected by the configuration code,
only routed; they are modelled as symbolic references (`ParamRef`).
-/

deriving instance DecidableEq for Except

namespace SimilarityLearning

/-- Python exceptions raised by the configuration code: `ValueError(msg)`, and the
`IndexError` a Python list raises on an out-of-range index such as `params[1]`. -/
inductive PyError where
  | valueError (msg : String)
  | indexError
  deriving DecidableEq

/-- `LOSS_OPTIONS_STR` from `src/common.py`: the advertised loss names. -/
def LOSS_OPTIONS_STR : String := "softmax / contrastive / triplet / arcface / center / coco"

/-- `TRIPLET_SAMPLING_OPTIONS_STR` from `src/common.py`. -/
def TRIPLET_SAMPLING_OPTIONS_STR : String := "all / semihard-neg / hardest-neg / hardest-pos-neg"

/-- Modelled from the spec: the distance-metric family of spec section 4.1
(`distances.py` is not under the sources). The configuration surface recognizes
the names "euclidean" and "cosine" (spec section 6); the spec prescribes no
behaviour for other names, so `fromName` simply records the requested name. -/
inductive Distance where
  | euclidean
  | cosine
  | named (s : String)
  deriving DecidableEq

/-- Modelled from the spec: `Distance.from_name` maps the caller-supplied distance
name to the metric of that name. -/
def Distance.fromName (s : String) : Distance :=
  if s = "euclidean" then .euclidean
  else if s = "cosine" then .cosine
  else .named s

/-- Modelled from the spec: the four triplet sampling strategies of spec section 4.2
(`losses/triplet.py` is not under the sources). Only the identity of the variant and
the semi-hard negative count are consumed by the configuration layer. -/
inductive TripletSamplingStrategy where
  | BatchAll
  | SemiHardNegative (n : Int)
  | HardestNegative
  | HardestPositiveNegative
  deriving DecidableEq

/-- Symbolic reference to a PyTorch parameter collection as routed by the
configuration code:
`layer i` is `model.layers()[i].parameters()` (the i-th entry built by
`SimNet.all_params`), `lossModule` is `model.loss_module.parameters()` (the entry
`all_params` appends), `wholeModel` is `model.parameters()`, and `lossCenters` is
`self.loss.center_parameters()` used by `CenterConfig.optimizer` on the mnist task. -/
inductive ParamRef where
  | layer (i : Nat)
  | lossModule
  | wholeModel
  | lossCenters
  deriving DecidableEq

/-- `SimNet` from `src/models.py`, reduced to what `all_params` observes:
`numLayers` is the length of the list returned by `layers()` and `hasLossModule`
records whether `loss_module is not None`. -/
structure SimNet where
  numLayers : Nat
  hasLossModule : Bool
  deriving DecidableEq

/-- `SimNet.all_params` from `src/models.py`:
`params = [layer.parameters() for layer in self.layers()]`, then
`params.append(self.loss_module.parameters())` when a loss module is attached. -/
def SimNet.all_params (m : SimNet) : List ParamRef :=
  ((List.range m.numLayers).map ParamRef.layer) ++
    (if m.hasLossModule then [ParamRef.lossModule] else [])

/-- `MNISTNet` from `src/models.py`: `layers()` returns `[self.net]`, one element. -/
def MNISTNet (hasLossModule : Bool) : SimNet := ⟨1, hasLossModule⟩

/-- `SpeakerNet` from `src/models.py`: `layers()` returns `[self.cnn, self.dnn]`,
two elements. -/
def SpeakerNet (hasLossModule : Bool) : SimNet := ⟨2, hasLossModule⟩

/-- The two optimizer algorithms used in `src/losses/config.py`. -/
inductive OptimAlgo where
  | SGD
  | RMSprop
  deriving DecidableEq

/-- One underlying `torch.optim` optimizer as constructed in
`src/losses/config.py`: algorithm, the parameter collection it optimizes, its
learning rate, momentum and weight decay (0 when the call site omits them). -/
structure OptimSpec where
  algo : OptimAlgo
  params : ParamRef
  lr : ℚ
  momentum : ℚ
  weight_decay : ℚ
  deriving DecidableEq

/-- `optim.SGD(params, lr=..., momentum=..., weight_decay=...)`. -/
def optimSGD (p : ParamRef) (lr momentum weight_decay : ℚ) : OptimSpec :=
  ⟨.SGD, p, lr, momentum, weight_decay⟩

/-- `optim.RMSprop(params, lr=..., momentum=...)`; the call sites pass no weight
decay. -/
def optimRMSprop (p : ParamRef) (lr momentum : ℚ) : OptimSpec :=
  ⟨.RMSprop, p, lr, momentum, 0⟩

/-- One learning-rate scheduler as constructed in `src/losses/config.py`,
recording which underlying optimizer (by index in the optimizer list) it wraps:
`StepLR(optimizers[i], step, gamma=...)` or
`ReduceLROnPlateau(optimizers[i], mode=max, factor=0.5, patience=5)`. -/
inductive SchedSpec where
  | StepLR (optIdx : Nat) (step : Nat) (gamma : ℚ)
  | ReduceLROnPlateau (optIdx : Nat)
  deriving DecidableEq

/-- `core.base.Optimizer(optimizers, schedulers)`: the wrapper holding the list of
underlying optimizers and the list of schedulers. -/
structure Optimizer where
  optimizers : List OptimSpec
  schedulers : List SchedSpec
  deriving DecidableEq

/-- The `LossConfig` hierarchy of `src/losses/config.py`, as a tagged variant
recording the constructor arguments each `__init__` stores. The `device`
argument is dropped: it only moves loss tensors and plays no part in any
claimed behaviour. -/
inductive LossConfig where
  | KLDivergenceConfig (nfeat : Int)
  | SoftmaxConfig (nfeat nclass : Int)
  | ArcFaceConfig (nfeat nclass : Int) (margin s : ℚ)
  | CenterConfig (nfeat nclass : Int) (lweight : ℚ) (distance : Distance)
  | CocoConfig (nfeat nclass : Int) (alpha : ℚ)
  | ContrastiveConfig (margin : ℚ) (distance : Distance) (size_avg online : Bool)
  | TripletConfig (margin scaling : ℚ) (distance : Distance) (size_avg online : Bool)
      (sampling : TripletSamplingStrategy)
  deriving DecidableEq

/-- Default of the `sampling` argument of `TripletConfig.__init__` in
`src/losses/config.py`: `sampling=BatchAll()`. -/
def TripletConfig.sampling_default : TripletSamplingStrategy := .BatchAll

/-- `LossConfig.optimizer(model, task, lr)` from `src/losses/config.py`, with each
subclass override inlined as a match arm. Python's `params[0]` / `params[1]`
indexing is modelled by `List.getElem?`, with `IndexError` when out of range.
Rational constants: 0.0005 = 1/2000, 0.9 = 9/10, 0.5 = 1/2, 0.6 = 3/5, 0.8 = 4/5. -/
def LossConfig.optimizer (cfg : LossConfig) (model : SimNet) (task : String)
    (lr : ℚ × ℚ) : Except PyError Optimizer :=
  match cfg with
  | .KLDivergenceConfig _ =>
      .ok ⟨[optimRMSprop .wholeModel lr.1 0], []⟩
  | .SoftmaxConfig _ _ =>
      if task = "mnist" then
        .ok ⟨[optimSGD .wholeModel lr.1 (9/10) (1/2000)], [.StepLR 0 10 (1/2)]⟩
      else if task = "sts" ∨ task = "ami" ∨ task = "sst2" then
        .ok ⟨[optimRMSprop .wholeModel lr.1 0], [.ReduceLROnPlateau 0]⟩
      else
        .error (.valueError "Task must be one of mnist/sts")
  | .ArcFaceConfig _ _ _ _ =>
      if task = "mnist" then
        match (SimNet.all_params model)[0]?, (SimNet.all_params model)[1]? with
        | some p0, some p1 =>
            .ok ⟨[optimSGD p0 lr.1 (9/10) (1/2000), optimSGD p1 (10 * lr.1) 0 0],
                 [.StepLR 0 8 (3/5), .StepLR 1 8 (4/5)]⟩
        | _, _ => .error .indexError
      else if task = "sts" ∨ task = "ami" ∨ task = "sst2" then
        match (SimNet.all_params model)[0]?, (SimNet.all_params model)[1]? with
        | some p0, some p1 =>
            .ok ⟨[optimRMSprop p0 lr.1 0, optimRMSprop p1 (10 * lr.1) 0],
                 [.ReduceLROnPlateau 0, .ReduceLROnPlateau 1]⟩
        | _, _ => .error .indexError
      else
        .error (.valueError "Task must be one of mnist/sts")
  | .CenterConfig _ _ _ _ =>
      if task = "mnist" then
        .ok ⟨[optimSGD .wholeModel lr.1 (9/10) (1/2000),
              optimSGD .lossCenters (10 * lr.1) 0 0],
             [.StepLR 0 20 (4/5)]⟩
      else if task = "sts" ∨ task = "ami" ∨ task = "sst2" then
        match (SimNet.all_params model)[0]?, (SimNet.all_params model)[1]? with
        | some p0, some p1 =>
            .ok ⟨[optimRMSprop p0 lr.1 0, optimRMSprop p1 (10 * lr.1) 0],
                 [.ReduceLROnPlateau 0, .ReduceLROnPlateau 1]⟩
        | _, _ => .error .indexError
      else
        .error (.valueError "Task must be one of mnist/sts")
  | .CocoConfig _ _ _ =>
      if task = "mnist" then
        match (SimNet.all_params model)[0]?, (SimNet.all_params model)[1]? with
        | some p0, some p1 =>
            .ok ⟨[optimSGD p0 lr.1 (9/10) (1/2000),
                  optimSGD p1 (10 * lr.1) (9/10) 0],
                 [.StepLR 0 10 (1/2)]⟩
        | _, _ => .error .indexError
      else if task = "sts" ∨ task = "ami" ∨ task = "sst2" then
        match (SimNet.all_params model)[0]?, (SimNet.all_params model)[1]? with
        | some p0, some p1 =>
            .ok ⟨[optimRMSprop p0 lr.1 0, optimRMSprop p1 (10 * lr.1) 0],
                 [.ReduceLROnPlateau 0, .ReduceLROnPlateau 1]⟩
        | _, _ => .error .indexError
      else
        .error (.valueError "Task must be one of mnist/sts")
  | .ContrastiveConfig _ _ _ _ =>
      if task = "mnist" then
        .ok ⟨[optimSGD .wholeModel lr.1 (9/10) (1/2000)], [.StepLR 0 4 (4/5)]⟩
      else if task = "sts" ∨ task = "ami" ∨ task = "snli" ∨ task = "sst2" then
        .ok ⟨[optimRMSprop .wholeModel lr.1 (9/10)], [.ReduceLROnPlateau 0]⟩
      else
        .error (.valueError "Task must be one of mnist/sts/ami/snli")
  | .TripletConfig _ _ _ _ _ _ =>
      if task = "mnist" then
        .ok ⟨[optimSGD .wholeModel lr.1 (9/10) (1/2000)], [.StepLR 0 5 (4/5)]⟩
      else if task = "sts" ∨ task = "ami" ∨ task = "snli" ∨ task = "sst2" then
        .ok ⟨[optimRMSprop .wholeModel lr.1 (9/10)], [.ReduceLROnPlateau 0]⟩
      else
        .error (.valueError "Task must be one of mnist/sts/ami/snli")

/-- `get_triplet_strategy(strategy, semihard_n)` from `src/common.py`. -/
def get_triplet_strategy (strategy : String) (semihard_n : Int) :
    Except PyError TripletSamplingStrategy :=
  if strategy = "all" then .ok .BatchAll
  else if strategy = "semihard-neg" then .ok (.SemiHardNegative semihard_n)
  else if strategy = "hardest-neg" then .ok .HardestNegative
  else if strategy = "hardest-pos-neg" then .ok .HardestPositiveNegative
  else .error (.valueError ("Triplet strategy should be one of: " ++
    TRIPLET_SAMPLING_OPTIONS_STR))

/-- `get_config(loss, nfeat, nclass, task, margin, distance, size_average,
loss_scale, triplet_strategy, semihard_n)` from `src/common.py`. The `online`
flag passed to the contrastive and triplet configurations is
`task != 'sts' and task != 'snli'`. -/
def get_config (loss : String) (nfeat nclass : Int) (task : String) (margin : ℚ)
    (distance : String) (size_avg : Bool) (loss_scale : ℚ)
    (triplet_strategy : String) (semihard_n : Int) : Except PyError LossConfig :=
  if loss = "softmax" then
    .ok (.SoftmaxConfig nfeat nclass)
  else if loss = "contrastive" then
    .ok (.ContrastiveConfig margin (Distance.fromName distance) size_avg
          (task != "sts" && task != "snli"))
  else if loss = "triplet" then
    match get_triplet_strategy triplet_strategy semihard_n with
    | .ok s =>
        .ok (.TripletConfig margin loss_scale (Distance.fromName distance) size_avg
              (task != "sts" && task != "snli") s)
    | .error e => .error e
  else if loss = "arcface" then
    .ok (.ArcFaceConfig nfeat nclass margin loss_scale)
  else if loss = "center" then
    .ok (.CenterConfig nfeat nclass loss_scale (Distance.fromName distance))
  else if loss = "coco" then
    .ok (.CocoConfig nfeat nclass loss_scale)
  else if loss = "kldiv" then
    .ok (.KLDivergenceConfig nfeat)
  else
    .error (.valueError ("Loss function should be one of: " ++ LOSS_OPTIONS_STR))

/-- Default of the `--triplet-strategy` option installed by `get_arg_parser` in
`src/common.py`. -/
def triplet_strategy_arg_default : String := "all"

/-- Default of the `--semihard-negatives` option installed by `get_arg_parser` in
`src/common.py`. -/
def semihard_negatives_arg_default : Int := 10

/-- The configurations whose `optimizer` override routes a second parameter group
through a dedicated underlying optimizer: `ArcFaceConfig`, `CenterConfig` and
`CocoConfig` in `src/losses/config.py`. -/
def LossConfig.separateLossOptimizer : LossConfig → Bool
  | .ArcFaceConfig _ _ _ _ => true
  | .CenterConfig _ _ _ _ => true
  | .CocoConfig _ _ _ => true
  | _ => false

/-- Modelled from the spec: whether the configuration's loss module owns trainable
parameters. The loss-module classes (`CenterLinear`, `ArcLinear`, `CocoLinear`,
`STSBaselineClassifier`) are not under the sources; per spec sections 3 and 4.3,
Softmax and KL-divergence use "a plain linear classifier", ArcFace and CoCo "one
weight vector per class" and Center "one center vector per class" — all trainable.
The contrastive and triplet configurations construct no loss module
(`loss_module=None` in `src/losses/config.py`). -/
def LossConfig.lossModuleOwnsParams : LossConfig → Bool
  | .KLDivergenceConfig _ => true
  | .SoftmaxConfig _ _ => true
  | .ArcFaceConfig _ _ _ _ => true
  | .CenterConfig _ _ _ _ => true
  | .CocoConfig _ _ _ => true
  | .ContrastiveConfig _ _ _ _ => false
  | .TripletConfig _ _ _ _ _ _ => false

/-- The set of task names each `optimizer` override recognizes (the if/elif
branches of `src/losses/config.py`). `KLDivergenceConfig.optimizer` performs no
task check, so it recognizes every task. -/
def LossConfig.recognizedTask (cfg : LossConfig) (task : String) : Bool :=
  match cfg with
  | .KLDivergenceConfig _ => true
  | .SoftmaxConfig _ _ | .ArcFaceConfig _ _ _ _ | .CenterConfig _ _ _ _
  | .CocoConfig _ _ _ =>
      task == "mnist" || task == "sts" || task == "ami" || task == "sst2"
  | .ContrastiveConfig _ _ _ _ | .TripletConfig _ _ _ _ _ _ =>
      task == "mnist" || task == "sts" || task == "ami" || task == "snli" ||
        task == "sst2"

/-- The `online` flag stored by a contrastive or triplet configuration, `none` for
the other variants (which take no such flag). -/
def LossConfig.onlineFlag : LossConfig → Option Bool
  | .ContrastiveConfig _ _ _ online => some online
  | .TripletConfig _ _ _ _ online _ => some online
  | _ => none

/-- The loss names `get_config` actually recognizes: the if/elif chain of
`src/common.py` accepts the six advertised names plus `kldiv`. -/
def recognizedLossNames : List String :=
  ["softmax", "contrastive", "triplet", "arcface", "center", "coco", "kldiv"]

/-- Any loss name outside the recognized set reaches the final else branch of
`get_config` and raises the fixed `ValueError`. -/
theorem get_config_unknown_loss (loss : String) (nfeat nclass : Int)
    (task : String) (margin : ℚ) (distance : String) (sa : Bool) (ls : ℚ)
    (strat : String) (n : Int) (h : loss ∉ recognizedLossNames) :
    get_config loss nfeat nclass task margin distance sa ls strat n =
      .error (.valueError ("Loss function should be one of: " ++
        LOSS_OPTIONS_STR)) := by
  simp only [recognizedLossNames, List.mem_cons, List.not_mem_nil, or_false,
    not_or] at h
  obtain ⟨h1, h2, h3, h4, h5, h6, h7⟩ := h
  simp [get_config, h1, h2, h3, h4, h5, h6, h7]

/-- Claim C3: for each of the six advertised loss names, `get_config` returns the
matching `LossConfig` variant, constructed with the caller-supplied margin,
distance, loss-scale, and (for triplet, whenever the strategy name resolves) the
resolved sampling strategy. -/
theorem C3_dispatch (nfeat nclass : Int) (task : String) (margin : ℚ)
    (distance : String) (sa : Bool) (ls : ℚ) (strat : String) (n : Int) :
    get_config "softmax" nfeat nclass task margin distance sa ls strat n =
      .ok (.SoftmaxConfig nfeat nclass) ∧
    get_config "contrastive" nfeat nclass task margin distance sa ls strat n =
      .ok (.ContrastiveConfig margin (Distance.fromName distance) sa
            (task != "sts" && task != "snli")) ∧
    (∀ s, get_triplet_strategy strat n = .ok s →
      get_config "triplet" nfeat nclass task margin distance sa ls strat n =
        .ok (.TripletConfig margin ls (Distance.fromName distance) sa
              (task != "sts" && task != "snli") s)) ∧
    get_config "arcface" nfeat nclass task margin distance sa ls strat n =
      .ok (.ArcFaceConfig nfeat nclass margin ls) ∧
    get_config "center" nfeat nclass task margin distance sa ls strat n =
      .ok (.CenterConfig nfeat nclass ls (Distance.fromName distance)) ∧
    get_config "coco" nfeat nclass task margin distance sa ls strat n =
      .ok (.CocoConfig nfeat nclass ls) := by
  refine ⟨rfl, rfl, ?_, rfl, rfl, rfl⟩
  intro s h
  have e : get_config "triplet" nfeat nclass task margin distance sa ls strat n =
      match get_triplet_strategy strat n with
      | .ok s' =>
          .ok (.TripletConfig margin ls (Distance.fromName distance) sa
                (task != "sts" && task != "snli") s')
      | .error e => .error e := rfl
  rw [e, h]

/-- Claim C3 witness: the triplet case at a concrete input. -/
theorem C3_witness :
    get_config "triplet" 2 10 "mnist" 2 "euclidean" true 7 "all" 10 =
      .ok (.TripletConfig 2 7 (Distance.fromName "euclidean") true
            ("mnist" != "sts" && "mnist" != "snli") .BatchAll) :=
  (C3_dispatch 2 10 "mnist" 2 "euclidean" true 7 "all" 10).2.2.1 .BatchAll rfl

set_option maxRecDepth 8000 in
/-- Claim C4 counterexample: `get_config "bogus"` does raise a `ValueError`
naming the allowed set, but the message does not contain the offending string
"bogus", contrary to the claim. -/
theorem C4_counterexample :
    get_config "bogus" 2 10 "mnist" 2 "cosine" true 7 "all" 10 =
      .error (.valueError ("Loss function should be one of: " ++ LOSS_OPTIONS_STR)) ∧
    ¬ List.IsInfix "bogus".data
        ("Loss function should be one of: " ++ LOSS_OPTIONS_STR).data := by
  constructor
  · rfl
  · decide

/-- Claim C4 as amended: for every loss name outside the set `get_config`
recognizes, a `ValueError` is raised whose message names the allowed set of loss
names; the message is a fixed sentence that does not mention the offending
string. -/
theorem C4_amended (loss : String) (nfeat nclass : Int) (task : String)
    (margin : ℚ) (distance : String) (sa : Bool) (ls : ℚ) (strat : String)
    (n : Int) (h : loss ∉ recognizedLossNames) :
    get_config loss nfeat nclass task margin distance sa ls strat n =
      .error (.valueError ("Loss function should be one of: " ++
        LOSS_OPTIONS_STR)) :=
  get_config_unknown_loss loss nfeat nclass task margin distance sa ls strat n h

/-- Claim C4 witness: the amended statement at the loss name "sphereface". -/
theorem C4_witness :
    get_config "sphereface" 3 5 "sts" 1 "euclidean" false 7 "all" 10 =
      .error (.valueError ("Loss function should be one of: " ++
        LOSS_OPTIONS_STR)) :=
  C4_amended "sphereface" 3 5 "sts" 1 "euclidean" false 7 "all" 10 (by decide)

/-- Claim C5: `get_triplet_strategy` maps "all" to `BatchAll`, "semihard-neg" to
`SemiHardNegative` with the given negative count, "hardest-neg" to
`HardestNegative`, "hardest-pos-neg" to `HardestPositiveNegative`, and raises a
configuration error exactly when the name is none of these four. -/
theorem C5_strategy_dispatch (strategy : String) (n : Int) :
    get_triplet_strategy "all" n = .ok .BatchAll ∧
    get_triplet_strategy "semihard-neg" n = .ok (.SemiHardNegative n) ∧
    get_triplet_strategy "hardest-neg" n = .ok .HardestNegative ∧
    get_triplet_strategy "hardest-pos-neg" n = .ok .HardestPositiveNegative ∧
    ((∃ e, get_triplet_strategy strategy n = .error e) ↔
      strategy ∉ ["all", "semihard-neg", "hardest-neg", "hardest-pos-neg"]) := by
  refine ⟨rfl, rfl, rfl, rfl, ?_⟩
  constructor
  · rintro ⟨e, he⟩ hmem
    fin_cases hmem <;> simp [get_triplet_strategy] at he
  · intro hmem
    simp only [List.mem_cons, List.not_mem_nil, or_false, not_or] at hmem
    obtain ⟨h1, h2, h3, h4⟩ := hmem
    exact ⟨.valueError ("Triplet strategy should be one of: " ++
        TRIPLET_SAMPLING_OPTIONS_STR),
      by simp [get_triplet_strategy, h1, h2, h3, h4]⟩


/-- Claim C5 witness: an unrecognized strategy name raises. -/
theorem C5_witness : ∃ e, get_triplet_strategy "bogus" 10 = .error e :=
  (C5_strategy_dispatch "bogus" 10).2.2.2.2.mpr (by decide)

/-- Claim C7: the default sampling argument of `TripletConfig.__init__` is
`BatchAll`, the default of the `--triplet-strategy` option is "all", and the
name "all" (with the default semi-hard count) resolves to `BatchAll`. -/
theorem C7_default_strategy :
    TripletConfig.sampling_default = .BatchAll ∧
    triplet_strategy_arg_default = "all" ∧
    get_triplet_strategy triplet_strategy_arg_default
      semihard_negatives_arg_default = .ok .BatchAll :=
  ⟨rfl, rfl, rfl⟩

/-- Claim C10: when `get_config` builds a contrastive or triplet configuration,
the stored `online` flag is `task != 'sts' and task != 'snli'` — false exactly
for the tasks "sts" and "snli" — whatever the caller passes for every other
argument. -/
theorem C10_online_flag (nfeat nclass : Int) (task : String) (margin : ℚ)
    (distance : String) (sa : Bool) (ls : ℚ) (strat : String) (n : Int)
    (cfg : LossConfig) :
    (get_config "contrastive" nfeat nclass task margin distance sa ls strat n =
        .ok cfg →
      cfg.onlineFlag = some (task != "sts" && task != "snli")) ∧
    (get_config "triplet" nfeat nclass task margin distance sa ls strat n =
        .ok cfg →
      cfg.onlineFlag = some (task != "sts" && task != "snli")) ∧
    ((task != "sts" && task != "snli") = false ↔
      (task = "sts" ∨ task = "snli")) := by
  refine ⟨?_, ?_, ?_⟩
  · intro h
    have e : get_config "contrastive" nfeat nclass task margin distance sa ls
        strat n =
        .ok (.ContrastiveConfig margin (Distance.fromName distance) sa
              (task != "sts" && task != "snli")) := rfl
    rw [e] at h
    injection h with h
    subst h
    rfl
  · intro h
    have e : get_config "triplet" nfeat nclass task margin distance sa ls strat
        n =
        match get_triplet_strategy strat n with
        | .ok s' =>
            .ok (.TripletConfig margin ls (Distance.fromName distance) sa
                  (task != "sts" && task != "snli") s')
        | .error e => .error e := rfl
    rw [e] at h
    cases hs : get_triplet_strategy strat n with
    | ok s =>
        rw [hs] at h
        injection h with h
        subst h
        rfl
    | error e =>
        rw [hs] at h
        exact absurd h (by simp)
  · constructor
    · intro h
      rcases Bool.and_eq_false_iff.mp h with h | h
      · exact Or.inl (by simpa using h)
      · exact Or.inr (by simpa using h)
    · rintro (h | h) <;> subst h <;> simp

/-- Claim C10 witness: on the "sts" task the contrastive loss is built with
online mining disabled. -/
theorem C10_witness :
    (LossConfig.ContrastiveConfig 2 .cosine true false).onlineFlag =
      some ("sts" != "sts" && "sts" != "snli") :=
  (C10_online_flag 2 10 "sts" 2 "cosine" true 7 "all" 10
    (.ContrastiveConfig 2 .cosine true false)).1 rfl

/-- Entries of `all_params` below the layer count are the layer parameter
collections, in layer order. -/
theorem all_params_getElem_lt (m : SimNet) (i : Nat) (h : i < m.numLayers) :
    m.all_params[i]? = some (.layer i) := by
  simp [SimNet.all_params, List.getElem?_append, List.getElem?_map,
    List.getElem?_range, h]

/-- When a loss module is attached, the entry of `all_params` right after the
layers is its parameter collection. -/
theorem all_params_getElem_loss (m : SimNet) (h : m.hasLossModule = true) :
    m.all_params[m.numLayers]? = some .lossModule := by
  simp [SimNet.all_params, List.getElem?_append, h]

/-- The length of `all_params`: one entry per layer, plus one for the loss
module when attached. -/
theorem all_params_length (m : SimNet) :
    m.all_params.length = m.numLayers + (if m.hasLossModule then 1 else 0) := by
  obtain ⟨n, b⟩ := m
  cases b <;> simp [SimNet.all_params]

/-- Claim C9: `all_params` lists one parameter collection per element of
`layers()` in layer order, followed by the loss module's collection exactly when
a loss module is attached; its length is `len(layers()) + 1` exactly in that
case; and index 1 holds the loss module's parameters precisely for single-layer
models (`MNISTNet`), while for the two-layer `SpeakerNet` index 1 holds the
second feature layer's parameters. -/
theorem C9_all_params (m : SimNet) :
    (m.all_params.length = m.numLayers + 1 ↔ m.hasLossModule = true) ∧
    (m.hasLossModule = false → m.all_params.length = m.numLayers) ∧
    (∀ i, i < m.numLayers → m.all_params[i]? = some (.layer i)) ∧
    (m.hasLossModule = true → m.all_params[m.numLayers]? = some .lossModule) ∧
    (m.hasLossModule = true →
      (m.all_params[1]? = some .lossModule ↔ m.numLayers = 1)) ∧
    (MNISTNet true).all_params[1]? = some .lossModule ∧
    (SpeakerNet true).all_params[1]? = some (.layer 1) := by
  refine ⟨?_, ?_, fun i h => all_params_getElem_lt m i h,
    fun h => all_params_getElem_loss m h, ?_, rfl, rfl⟩
  · rw [all_params_length]
    obtain ⟨n, b⟩ := m
    cases b <;> simp
  · rw [all_params_length]
    obtain ⟨n, b⟩ := m
    cases b <;> simp
  · obtain ⟨n, b⟩ := m
    intro h
    simp only at h
    subst h
    rcases n with _ | _ | k
    · decide
    · decide
    · have hk : (1 : Nat) < k + 2 := by omega
      have e := all_params_getElem_lt ⟨k + 2, true⟩ 1 hk
      rw [e]
      constructor
      · intro h1
        injection h1 with h1
        exact absurd h1 (by decide)
      · intro h1
        have h2 : k + 2 = 1 := h1
        omega

/-- Claim C9 witness: for the two-layer model with a loss module, the loss-module
entry sits at index 2, not at index 1. -/
theorem C9_witness :
    (⟨2, true⟩ : SimNet).all_params[2]? = some .lossModule ∧
    ((⟨2, true⟩ : SimNet).all_params[1]? = some .lossModule ↔ (2 : Nat) = 1) :=
  ⟨(C9_all_params ⟨2, true⟩).2.2.2.1 rfl, (C9_all_params ⟨2, true⟩).2.2.2.2.1 rfl⟩

/-- Claim C2 counterexample: the Softmax configuration's loss module
(`CenterLinear`, a plain linear classifier) owns trainable parameters, yet
`SoftmaxConfig.optimizer` builds exactly one underlying optimizer, contradicting
the claim that two are built exactly when the loss owns trainable parameters. -/
theorem C2_counterexample :
    (LossConfig.SoftmaxConfig 2 10).lossModuleOwnsParams = true ∧
    ((LossConfig.SoftmaxConfig 2 10).optimizer (MNISTNet true) "mnist"
        (1, 2)).map (fun o => o.optimizers.length) = .ok 1 :=
  ⟨rfl, rfl⟩

/-- Claim C2 as amended: whenever `LossConfig.optimizer` returns, it has built
exactly two underlying optimizers for the ArcFace, Center and CoCo
configurations, and exactly one for Softmax, KL-divergence, Contrastive and
Triplet — even though the Softmax and KL-divergence loss modules own trainable
parameters (those are reached through the single optimizer over all model
parameters). -/
theorem C2_amended (cfg : LossConfig) (model : SimNet) (task : String)
    (lr : ℚ × ℚ) (o : Optimizer)
    (h : cfg.optimizer model task lr = .ok o) :
    o.optimizers.length = if cfg.separateLossOptimizer then 2 else 1 := by
  cases cfg <;>
    simp only [LossConfig.optimizer, LossConfig.separateLossOptimizer] at h ⊢ <;>
    (repeat' split at h) <;>
    first
      | (injection h with h; subst h; rfl)
      | simp_all

/-- Claim C2 witness: the amended statement at the Softmax configuration. -/
theorem C2_witness :
    (Optimizer.mk [optimSGD .wholeModel 1 (9/10) (1/2000)]
        [.StepLR 0 10 (1/2)]).optimizers.length =
      if (LossConfig.SoftmaxConfig 2 10).separateLossOptimizer then 2 else 1 :=
  C2_amended (.SoftmaxConfig 2 10) (MNISTNet true) "mnist" (1, 2) _ rfl

/-- Claim C1 counterexample: for the ArcFace configuration on the recognized
task "mnist" with a two-layer model carrying a loss module (the `SpeakerNet`
shape), the second underlying optimizer is built over `all_params()[1]` — the
second feature layer's parameters — not over the loss module's parameters. -/
theorem C1_counterexample :
    LossConfig.recognizedTask (.ArcFaceConfig 2 10 (1/5) 7) "mnist" = true ∧
    (LossConfig.ArcFaceConfig 2 10 (1/5) 7).optimizer (SpeakerNet true) "mnist"
        (1, 2) =
      .ok ⟨[optimSGD (.layer 0) 1 (9/10) (1/2000),
            optimSGD (.layer 1) (10 * 1) 0 0],
           [.StepLR 0 8 (3/5), .StepLR 1 8 (4/5)]⟩ ∧
    ParamRef.layer 1 ≠ ParamRef.lossModule :=
  ⟨rfl, rfl, by decide⟩

/-- Claim C1 as amended: for the ArcFace, Center and CoCo configurations, every
model, task and learning-rate pair for which `optimizer` returns, the second
underlying optimizer's learning rate is 10 times the feature-extractor rate
`lr[0]`; its parameter group is the loss module's own parameters — or, for the
Center configuration on "mnist", the loss's center parameters — whenever the
model consists of a single feature layer with an attached loss module (for
models with more feature layers it is `all_params()[1]`, the second layer). -/
theorem C1_amended (cfg : LossConfig) (model : SimNet) (task : String)
    (lr : ℚ × ℚ) (o : Optimizer) (hk : cfg.separateLossOptimizer = true)
    (ho : cfg.optimizer model task lr = .ok o) :
    ∃ spec, o.optimizers[1]? = some spec ∧ spec.lr = 10 * lr.1 ∧
      (model.numLayers = 1 → model.hasLossModule = true →
        (spec.params = .lossModule ∨ spec.params = .lossCenters)) := by
  obtain ⟨n, b⟩ := model
  cases cfg with
  | KLDivergenceConfig a => simp [LossConfig.separateLossOptimizer] at hk
  | SoftmaxConfig a b' => simp [LossConfig.separateLossOptimizer] at hk
  | ContrastiveConfig a b' c' d' => simp [LossConfig.separateLossOptimizer] at hk
  | TripletConfig a b' c' d' e' f' => simp [LossConfig.separateLossOptimizer] at hk
  | ArcFaceConfig a b' c' d' =>
      simp only [LossConfig.optimizer] at ho
      split at ho
      · split at ho
        · rename_i p0 p1 h0 h1
          injection ho with ho
          subst ho
          refine ⟨optimSGD p1 (10 * lr.1) 0 0, rfl, rfl, ?_⟩
          intro hn hb
          have hn' : n = 1 := hn
          have hb' : b = true := hb
          subst hn'
          subst hb'
          have e : (SimNet.all_params ⟨1, true⟩)[1]? =
              some ParamRef.lossModule := rfl
          rw [e] at h1
          injection h1 with h1
          exact Or.inl h1.symm
        · simp at ho
      · split at ho
        · split at ho
          · rename_i p0 p1 h0 h1
            injection ho with ho
            subst ho
            refine ⟨optimRMSprop p1 (10 * lr.1) 0, rfl, rfl, ?_⟩
            intro hn hb
            have hn' : n = 1 := hn
            have hb' : b = true := hb
            subst hn'
            subst hb'
            have e : (SimNet.all_params ⟨1, true⟩)[1]? =
                some ParamRef.lossModule := rfl
            rw [e] at h1
            injection h1 with h1
            exact Or.inl h1.symm
          · simp at ho
        · simp at ho
  | CenterConfig a b' c' d' =>
      simp only [LossConfig.optimizer] at ho
      split at ho
      · injection ho with ho
        subst ho
        exact ⟨optimSGD .lossCenters (10 * lr.1) 0 0, rfl, rfl,
          fun _ _ => Or.inr rfl⟩
      · split at ho
        · split at ho
          · rename_i p0 p1 h0 h1
            injection ho with ho
            subst ho
            refine ⟨optimRMSprop p1 (10 * lr.1) 0, rfl, rfl, ?_⟩
            intro hn hb
            have hn' : n = 1 := hn
            have hb' : b = true := hb
            subst hn'
            subst hb'
            have e : (SimNet.all_params ⟨1, true⟩)[1]? =
                some ParamRef.lossModule := rfl
            rw [e] at h1
            injection h1 with h1
            exact Or.inl h1.symm
          · simp at ho
        · simp at ho
  | CocoConfig a b' c' =>
      simp only [LossConfig.optimizer] at ho
      split at ho
      · split at ho
        · rename_i p0 p1 h0 h1
          injection ho with ho
          subst ho
          refine ⟨optimSGD p1 (10 * lr.1) (9/10) 0, rfl, rfl, ?_⟩
          intro hn hb
          have hn' : n = 1 := hn
          have hb' : b = true := hb
          subst hn'
          subst hb'
          have e : (SimNet.all_params ⟨1, true⟩)[1]? =
              some ParamRef.lossModule := rfl
          rw [e] at h1
          injection h1 with h1
          exact Or.inl h1.symm
        · simp at ho
      · split at ho
        · split at ho
          · rename_i p0 p1 h0 h1
            injection ho with ho
            subst ho
            refine ⟨optimRMSprop p1 (10 * lr.1) 0, rfl, rfl, ?_⟩
            intro hn hb
            have hn' : n = 1 := hn
            have hb' : b = true := hb
            subst hn'
            subst hb'
            have e : (SimNet.all_params ⟨1, true⟩)[1]? =
                some ParamRef.lossModule := rfl
            rw [e] at h1
            injection h1 with h1
            exact Or.inl h1.symm
          · simp at ho
        · simp at ho

/-- Claim C1 witness: the amended statement at the ArcFace configuration with
the single-layer `MNISTNet` carrying its loss module, on "mnist". -/
theorem C1_witness :
    ∃ spec, (Optimizer.mk
        [optimSGD (.layer 0) 1 (9/10) (1/2000),
         optimSGD .lossModule (10 * 1) 0 0]
        [.StepLR 0 8 (3/5), .StepLR 1 8 (4/5)]).optimizers[1]? = some spec ∧
      spec.lr = 10 * ((1 : ℚ), (2 : ℚ)).1 ∧
      ((MNISTNet true).numLayers = 1 → (MNISTNet true).hasLossModule = true →
        (spec.params = .lossModule ∨ spec.params = .lossCenters)) :=
  C1_amended (.ArcFaceConfig 2 10 (1/5) 7) (MNISTNet true) "mnist" (1, 2) _
    rfl rfl

/-- Claim C6 counterexample: "mnist" is a recognized task for the ArcFace
configuration, yet `optimizer` raises an `IndexError` (not returning an
Optimizer) on a single-layer model without a loss module, because
`all_params()[1]` does not exist. -/
theorem C6_counterexample :
    LossConfig.recognizedTask (.ArcFaceConfig 2 10 (1/5) 7) "mnist" = true ∧
    (LossConfig.ArcFaceConfig 2 10 (1/5) 7).optimizer ⟨1, false⟩ "mnist"
        (1, 2) = .error .indexError :=
  ⟨rfl, rfl⟩

/-- Claim C6 as amended: for every variant, model and learning-rate pair, a task
outside the variant's recognized set makes `optimizer` raise a `ValueError`;
for a recognized task it returns an Optimizer without raising provided the model
exposes at least two `all_params()` entries (the groups indexed by the ArcFace,
Center and CoCo assemblies) — otherwise an `IndexError` can escape instead. -/
theorem C6_amended (cfg : LossConfig) (model : SimNet) (task : String)
    (lr : ℚ × ℚ) :
    (cfg.recognizedTask task = false →
      ∃ msg, cfg.optimizer model task lr = .error (.valueError msg)) ∧
    (cfg.recognizedTask task = true → 2 ≤ model.all_params.length →
      ∃ o, cfg.optimizer model task lr = .ok o) := by
  constructor
  · intro h
    cases cfg with
    | KLDivergenceConfig a => simp [LossConfig.recognizedTask] at h
    | SoftmaxConfig a b =>
        simp only [LossConfig.recognizedTask, Bool.or_eq_false_iff,
          beq_eq_false_iff_ne, ne_eq] at h
        obtain ⟨⟨⟨h1, h2⟩, h3⟩, h4⟩ := h
        exact ⟨"Task must be one of mnist/sts",
          by simp [LossConfig.optimizer, h1, h2, h3, h4]⟩
    | ArcFaceConfig a b c d =>
        simp only [LossConfig.recognizedTask, Bool.or_eq_false_iff,
          beq_eq_false_iff_ne, ne_eq] at h
        obtain ⟨⟨⟨h1, h2⟩, h3⟩, h4⟩ := h
        exact ⟨"Task must be one of mnist/sts",
          by simp [LossConfig.optimizer, h1, h2, h3, h4]⟩
    | CenterConfig a b c d =>
        simp only [LossConfig.recognizedTask, Bool.or_eq_false_iff,
          beq_eq_false_iff_ne, ne_eq] at h
        obtain ⟨⟨⟨h1, h2⟩, h3⟩, h4⟩ := h
        exact ⟨"Task must be one of mnist/sts",
          by simp [LossConfig.optimizer, h1, h2, h3, h4]⟩
    | CocoConfig a b c =>
        simp only [LossConfig.recognizedTask, Bool.or_eq_false_iff,
          beq_eq_false_iff_ne, ne_eq] at h
        obtain ⟨⟨⟨h1, h2⟩, h3⟩, h4⟩ := h
        exact ⟨"Task must be one of mnist/sts",
          by simp [LossConfig.optimizer, h1, h2, h3, h4]⟩
    | ContrastiveConfig a b c d =>
        simp only [LossConfig.recognizedTask, Bool.or_eq_false_iff,
          beq_eq_false_iff_ne, ne_eq] at h
        obtain ⟨⟨⟨⟨h1, h2⟩, h3⟩, h4⟩, h5⟩ := h
        exact ⟨"Task must be one of mnist/sts/ami/snli",
          by simp [LossConfig.optimizer, h1, h2, h3, h4, h5]⟩
    | TripletConfig a b c d e f =>
        simp only [LossConfig.recognizedTask, Bool.or_eq_false_iff,
          beq_eq_false_iff_ne, ne_eq] at h
        obtain ⟨⟨⟨⟨h1, h2⟩, h3⟩, h4⟩, h5⟩ := h
        exact ⟨"Task must be one of mnist/sts/ami/snli",
          by simp [LossConfig.optimizer, h1, h2, h3, h4, h5]⟩
  · intro h hlen
    obtain ⟨p0, e0⟩ : ∃ p, model.all_params[0]? = some p :=
      ⟨_, List.getElem?_eq_getElem (by omega)⟩
    obtain ⟨p1, e1⟩ : ∃ p, model.all_params[1]? = some p :=
      ⟨_, List.getElem?_eq_getElem (by omega)⟩
    cases cfg with
    | KLDivergenceConfig a => exact ⟨_, rfl⟩
    | SoftmaxConfig a b =>
        simp only [LossConfig.recognizedTask, Bool.or_eq_true,
          beq_iff_eq] at h
        rcases h with ((h | h) | h) | h <;> subst h <;> exact ⟨_, rfl⟩
    | ArcFaceConfig a b c d =>
        simp only [LossConfig.recognizedTask, Bool.or_eq_true,
          beq_iff_eq] at h
        rcases h with ((h | h) | h) | h <;> subst h <;>
          rcases hres : (LossConfig.ArcFaceConfig a b c d).optimizer model _
              lr with e | o <;>
          first
            | exact ⟨_, rfl⟩
            | (exfalso; simp [LossConfig.optimizer, e0, e1] at hres)
    | CenterConfig a b c d =>
        simp only [LossConfig.recognizedTask, Bool.or_eq_true,
          beq_iff_eq] at h
        rcases h with ((h | h) | h) | h <;> subst h <;>
          rcases hres : (LossConfig.CenterConfig a b c d).optimizer model _
              lr with e | o <;>
          first
            | exact ⟨_, rfl⟩
            | (exfalso; simp [LossConfig.optimizer, e0, e1] at hres)
    | CocoConfig a b c =>
        simp only [LossConfig.recognizedTask, Bool.or_eq_true,
          beq_iff_eq] at h
        rcases h with ((h | h) | h) | h <;> subst h <;>
          rcases hres : (LossConfig.CocoConfig a b c).optimizer model _
              lr with e | o <;>
          first
            | exact ⟨_, rfl⟩
            | (exfalso; simp [LossConfig.optimizer, e0, e1] at hres)
    | ContrastiveConfig a b c d =>
        simp only [LossConfig.recognizedTask, Bool.or_eq_true,
          beq_iff_eq] at h
        rcases h with (((h | h) | h) | h) | h <;> subst h <;> exact ⟨_, rfl⟩
    | TripletConfig a b c d e f =>
        simp only [LossConfig.recognizedTask, Bool.or_eq_true,
          beq_iff_eq] at h
        rcases h with (((h | h) | h) | h) | h <;> subst h <;> exact ⟨_, rfl⟩

/-- Claim C6 witness: an unrecognized task raises, and a recognized task on a
model with enough parameter groups returns. -/
theorem C6_witness :
    (∃ msg, (LossConfig.SoftmaxConfig 2 10).optimizer (MNISTNet true) "bogus"
      (1, 2) = .error (.valueError msg)) ∧
    (∃ o, (LossConfig.CocoConfig 2 10 7).optimizer (MNISTNet true) "sts"
      (1, 2) = .ok o) :=
  ⟨(C6_amended (.SoftmaxConfig 2 10) (MNISTNet true) "bogus" (1, 2)).1 rfl,
   (C6_amended (.CocoConfig 2 10 7) (MNISTNet true) "sts" (1, 2)).2 rfl
     (by decide)⟩

set_option maxRecDepth 8000 in
/-- Claim C8 counterexample: "triplet" is inside the seven-name recognized set,
yet `get_config` raises on it when the triplet-strategy name is invalid — so
`get_config` does not raise exactly for loss names outside that set. -/
theorem C8_counterexample :
    "triplet" ∈ recognizedLossNames ∧
    get_config "triplet" 2 10 "mnist" 2 "cosine" true 7 "bogus" 10 =
      .error (.valueError ("Triplet strategy should be one of: " ++
        TRIPLET_SAMPLING_OPTIONS_STR)) :=
  ⟨by decide, rfl⟩

set_option maxRecDepth 8000 in
/-- Claim C8 as amended: `get_config` returns a `KLDivergenceConfig` for "kldiv"
although that name is absent from the advertised allowed set; it raises for
every loss name outside the seven-name recognized set; and for a name inside
the set it raises only when the name is "triplet" and the triplet-strategy name
is invalid. -/
theorem C8_amended (loss : String) (nfeat nclass : Int) (task : String)
    (margin : ℚ) (distance : String) (sa : Bool) (ls : ℚ) (strat : String)
    (n : Int) :
    get_config "kldiv" nfeat nclass task margin distance sa ls strat n =
      .ok (.KLDivergenceConfig nfeat) ∧
    ¬ List.IsInfix "kldiv".data LOSS_OPTIONS_STR.data ∧
    (loss ∉ recognizedLossNames →
      ∃ msg, get_config loss nfeat nclass task margin distance sa ls strat n =
        .error (.valueError msg)) ∧
    (loss ∈ recognizedLossNames →
      ∀ e, get_config loss nfeat nclass task margin distance sa ls strat n =
          .error e →
        loss = "triplet" ∧
          strat ∉ ["all", "semihard-neg", "hardest-neg", "hardest-pos-neg"]) := by
  refine ⟨rfl, by decide, ?_, ?_⟩
  · intro h
    exact ⟨_, get_config_unknown_loss loss nfeat nclass task margin distance sa
      ls strat n h⟩
  · intro hmem e he
    fin_cases hmem
    · simp [get_config] at he
    · simp [get_config] at he
    · refine ⟨rfl, ?_⟩
      intro hs
      fin_cases hs <;> simp [get_config, get_triplet_strategy] at he
    · simp [get_config] at he
    · simp [get_config] at he
    · simp [get_config] at he
    · simp [get_config] at he

/-- Claim C8 witness: a name outside the seven-name set raises, and "triplet"
with an invalid strategy satisfies the only-triplet-raises clause. -/
theorem C8_witness :
    (∃ msg, get_config "l2softmax" 2 10 "mnist" 2 "cosine" true 7 "all" 10 =
      .error (.valueError msg)) ∧
    ("triplet" = "triplet" ∧
      "worst-neg" ∉ ["all", "semihard-neg", "hardest-neg", "hardest-pos-neg"]) :=
  ⟨(C8_amended "l2softmax" 2 10 "mnist" 2 "cosine" true 7 "all" 10).2.2.1
      (by decide),
   (C8_amended "triplet" 2 10 "mnist" 2 "cosine" true 7 "worst-neg" 10).2.2.2
      (by decide) _ rfl⟩

end SimilarityLearning
